import Mathlib

/-!
Shallow embedding of the NPC decision/action pipeline of `src/main.rs`
(a Bevy-based farming simulation with LLM-driven NPCs), together with
proofs about the claims of the specification.

Conventions of the embedding:
* Rust `f32` quantities (cooldowns, satiety, growth, distances) are
  modelled as exact rationals `ℚ`; the algorithms only add, subtract,
  compare and clamp, so the rational semantics is the intended real
  semantics of the code.
* Rust `u32` inventory counts are modelled as `ℕ`; theorems that touch
  the decrement in the `Eat` branch carry the hypothesis `1 ≤ count`
  under which `ℕ` subtraction and `u32` subtraction agree (and under
  which the debug-mode underflow panic cannot fire).
* `serde_json` parse results are modelled as `Option Json` over a small
  JSON value type; `none` is a parse failure.
* A Rust `panic!`/`.unwrap()` failure is modelled by `Option`/an explicit
  `panicked` constructor in the result type of the translated function.
-/

namespace Rpg

/-- Item kinds, from `enum Item` in `src/main.rs`. -/
inductive Item
  | Plant
  | Meat
deriving DecidableEq, Repr

/-- Nutrition value of an item, from `Item::saturation` (`Plant => 10.0`,
`Meat => 20.0`). -/
def Item.saturation : Item → ℚ
  | Item.Plant => 10
  | Item.Meat => 20

/-- Queued character actions, from `enum Action`. -/
inductive Action
  | Eat
  | Harvest
  | Talk (speech : String)
deriving DecidableEq, Repr

/-- NPC behavioral state, from `enum NPCState`. -/
inductive NPCState
  | Idle
  | Farming
  | Traveling (destination : String)
deriving DecidableEq, Repr

/-- The dispatch cooldown constant, from `NPC::CHAT_COOLDOWN = 80.0`. -/
def CHAT_COOLDOWN : ℚ := 80

/-- Per-agent cooldown/dispatch step of `update_npcs`: if the cooldown is
still positive it is decremented by the frame time and nothing is
dispatched; otherwise the cooldown is reset to `CHAT_COOLDOWN` and a new
request handle (`DialogRequest`) is inserted on the entity — `insert`
overwrites any component of the same type, so an existing handle is
replaced.  The result is `(new cooldown, new pending handle, dispatched?)`;
handles are identified by `ℕ` ids and `fresh` is the id of the request
that would be spawned this tick. -/
def update_npcs_step (dt : ℚ) (fresh : ℕ) (cooldown : ℚ) (pending : Option ℕ) :
    ℚ × Option ℕ × Bool :=
  if cooldown > 0 then
    (cooldown - dt, pending, false)
  else
    (CHAT_COOLDOWN, some fresh, true)

/-- The "You see … near you. " sentence built in `update_npcs`
(lines 519–532): pop the last name; if any names remain, join them with
", " and splice both parts into "You see {} and {} near you. ";
a single name gives "You see {} near you. "; no names give "". -/
def nearby_people_sentence (names : List String) : String :=
  match names.getLast? with
  | none => ""
  | some last_person =>
    let rest := names.dropLast
    if rest.length > 0 then
      "You see " ++ String.intercalate ", " rest ++ " and " ++ last_person ++ " near you. "
    else
      "You see " ++ last_person ++ " near you. "

/-- The "You are currently in … . " sentence built in `update_npcs`
(lines 541–554), with the same list grammar as `nearby_people_sentence`. -/
def active_regions_sentence (names : List String) : String :=
  match names.getLast? with
  | none => ""
  | some last_region =>
    let rest := names.dropLast
    if rest.length > 0 then
      "You are currently in " ++ String.intercalate ", " rest ++ " and " ++ last_region ++ ". "
    else
      "You are currently in " ++ last_region ++ ". "

/-- Harvestable plants, from `struct Plant { growth: f32 }`. -/
structure Plant where
  growth : ℚ
deriving DecidableEq, Repr

/-- The harvest range constant, from `Plant::HARVEST_RANGE = 50.0`.  In
the source it is a plain constant: it does not depend on the plant or on
its growth stage. -/
def Plant.HARVEST_RANGE : ℚ := 50

/-- From `Plant::is_grown`: `self.growth >= 1.0`. -/
def Plant.is_grown (p : Plant) : Bool := decide (p.growth ≥ 1)

/-- From `Plant::get_growth_stage`: `(self.growth * 3.0).floor() as u32`. -/
def Plant.get_growth_stage (p : Plant) : ℕ := (⌊p.growth * 3⌋).toNat

/-- From `Plant::grow`: add `amount` to growth, then clamp to `1.0` when
strictly above it. -/
def Plant.grow (p : Plant) (amount : ℚ) : Plant :=
  let g := p.growth + amount
  if g > 1 then ⟨1⟩ else ⟨g⟩

/-- The fixed natural-growth increment per tick, from
`plant.grow(0.001)` in `update_plants`. -/
def GROWTH_INCREMENT : ℚ := 1 / 1000

/-- `n` ticks of natural growth (`update_plants` applied `n` times to
one plant, ignoring the texture update which does not feed back into
state). -/
def grow_ticks : ℕ → Plant → Plant
  | 0, p => p
  | n + 1, p => (grow_ticks n p).grow GROWTH_INCREMENT

/-- The texture path chosen for a plant each tick in `update_plants`:
`"textures/plants/stage{}.png"` with the growth stage spliced in.  This
is the only consumer of `get_growth_stage` in the source. -/
def plant_texture (p : Plant) : String :=
  "textures/plants/stage" ++ toString p.get_growth_stage ++ ".png"

/-- The per-plant body of the `Action::Harvest` arm of `handle_actions`
(lines 883–895): when the plant is within `HARVEST_RANGE` of the
character and is grown, one `Item.Plant` is added to the inventory and
the plant's growth is reset to `0.0`.  `dist` is the distance between
the character and the plant; the result is the updated plant and
whether an item was gained. -/
def harvest_plant (dist : ℚ) (p : Plant) : Plant × Bool :=
  if dist < Plant.HARVEST_RANGE then
    if p.is_grown then (⟨0⟩, true) else (p, false)
  else (p, false)

/-- Whether the `Harvest` arm of `handle_actions` harvests this plant:
distance strictly below the constant range, and the plant grown. -/
def harvest_eligible (dist : ℚ) (p : Plant) : Bool :=
  decide (dist < Plant.HARVEST_RANGE) && p.is_grown

/-- Result of the per-character body of `update_saturation`
(lines 845–864): either the entity is despawned, or it survives with
its new satiety and (possibly extended) action queue. -/
inductive SatResult
  | despawned
  | alive (saturation : ℚ) (actions : List Action)
deriving DecidableEq, Repr

/-- Per-character body of `update_saturation`: decrement satiety by the
frame time; if the result is strictly negative the entity is despawned;
otherwise, if it is below `30.0` and some held item has positive
nutrition, an `Eat` action is pushed. -/
def update_saturation_step (dt : ℚ) (saturation : ℚ)
    (items : List (Item × ℕ)) (actions : List Action) : SatResult :=
  let saturation := saturation - dt
  if saturation < 0 then SatResult.despawned
  else if saturation < 30 ∧ items.any (fun p => decide (p.1.saturation > 0)) then
    SatResult.alive saturation (actions ++ [Action.Eat])
  else SatResult.alive saturation actions

/-- The `Action::Eat` arm of `handle_actions` (lines 874–881): walk the
inventory in order; at the first entry whose item has positive
nutrition, decrement its count by one and add the item's nutrition to
satiety, then stop.  Returns the new inventory and new satiety.
(The Rust decrement is on a `u32`; the theorems below assume the
decremented count is at least 1, where `ℕ` and `u32` agree.) -/
def eat_items : List (Item × ℕ) → ℚ → List (Item × ℕ) × ℚ
  | [], saturation => ([], saturation)
  | (item, count) :: rest, saturation =>
    if item.saturation > 0 then
      ((item, count - 1) :: rest, saturation + item.saturation)
    else
      let r := eat_items rest saturation
      ((item, count) :: r.1, r.2)

/-- A small JSON value type standing for `serde_json::Value`. -/
inductive Json
  | null
  | bool (b : Bool)
  | num (q : ℚ)
  | str (s : String)
  | arr (elems : List Json)
  | obj (fields : List (String × Json))

/-- `serde_json::Value`'s `Index<&str>` as used by `task_args["task"]`:
on an object, the value of the first field with the given key, else
`Null`; on any non-object, `Null`. -/
def Json.index (j : Json) (key : String) : Json :=
  match j with
  | Json.obj fields =>
    match fields.find? (fun kv => kv.1 == key) with
    | some kv => kv.2
    | none => Json.null
  | _ => Json.null

/-- `serde_json::Value::as_str`: `Some` only on a JSON string. -/
def Json.asStr : Json → Option String
  | Json.str s => some s
  | _ => none

/-- The `"set_task"` arm of the tool-call loop in
`handle_npc_dialog_requests` (lines 667–698).  `args` is the result of
`serde_json::from_str(arguments).ok()` (so `none` is malformed,
non-JSON argument text).  Returns the NPC state after the arm together
with whether a warning was printed.  Note the two outer fallback
branches (malformed JSON, missing/non-string `task` field) only log:
they leave the state unchanged. -/
def handle_set_task (args : Option Json) (cur : NPCState) : NPCState × Bool :=
  match args with
  | none => (cur, true)
  | some task_args =>
    match (task_args.index "task").asStr with
    | none => (cur, true)
    | some task =>
      if task = "idle" then (NPCState.Idle, false)
      else if task = "farming" then (NPCState.Farming, false)
      else if task = "traveling" then
        match (task_args.index "destination").asStr with
        | some destination => (NPCState.Traveling destination, false)
        | none => (NPCState.Idle, true)
      else (NPCState.Idle, true)

/-- Rust `str::strip_prefix` on the character-list representation of
strings: `some` of the remainder when `p` is a prefix of `s`. -/
def strip_pre (p s : String) : Option String :=
  if p.data.isPrefixOf s.data then some ⟨s.data.drop p.data.length⟩ else none

/-- `strip_pre` succeeds on an exact prefix, returning the remainder. -/
theorem strip_pre_append (p r : String) : strip_pre p (p ++ r) = some r := by
  obtain ⟨rd⟩ := r
  unfold strip_pre
  have hdata : (p ++ ⟨rd⟩ : String).data = p.data ++ rd := rfl
  rw [hdata, if_pos ( List.isPrefixOf_iff_prefix.mpr ( List.prefix_append _ _)), List.drop_left]

/-- `strip_pre` fails when the prefix is absent. -/
theorem strip_pre_of_not (p s : String)
    (h : p.data.isPrefixOf s.data = false) : strip_pre p s = none := by
  unfold strip_pre
  rw [h]
  rfl

/-- The text-content branch of `handle_npc_dialog_requests`
(lines 655–663): when the message carries content and that content is
exactly prefixed with `"{name}: "`, push `Talk` of the stripped
remainder onto the character's action queue; otherwise change
nothing. -/
def handle_content (name : String) (content : Option String)
    (actions : List Action) : List Action :=
  match content with
  | none => actions
  | some character_response =>
    match strip_pre (name ++ ": ") character_response with
    | some stripped => actions ++ [Action.Talk stripped]
    | none => actions

/-- A completed generation message, from `struct OpenAIMessage` (the
fields the integrator consumes): optional text content and optional
tool calls.  A tool call is its function name together with the parse
result of its argument string. -/
structure OpenAIMessage where
  content : Option String
  tool_calls : Option (List (String × Option Json))

/-- The whole per-message body of `handle_npc_dialog_requests`
(lines 654–703) for one completed task result: `none` (the task
returned `None`) changes nothing; otherwise the content branch runs,
then every tool call named `"set_task"` is applied to the state in
order.  In every case the caller then removes the `DialogRequest`
handle. -/
def handle_completed (name : String) (st : NPCState) (actions : List Action)
    (msg : Option OpenAIMessage) : NPCState × List Action :=
  match msg with
  | none => (st, actions)
  | some m =>
    let actions := handle_content name m.content actions
    let st :=
      match m.tool_calls with
      | some tool_calls =>
        tool_calls.foldl
          (fun s tc => if tc.1 = "set_task" then (handle_set_task tc.2 s).1 else s) st
      | none => st
    (st, actions)

/-- How the async task body of `update_npcs` classifies the raw
response text (lines 627–640): it parses as an `OpenAIResponse`
(success, yielding `choices[0].message`), or as an
`OpenAIErrorResponse` (the structured error envelope), or as
neither. -/
inductive ResponseParse
  | success (msg : OpenAIMessage)
  | errorEnvelope (message error_type : String)
  | unparseable

/-- What the async task does with each parse outcome: a success returns
`Some(message)`, an error envelope is logged and `None` is returned,
and a body that parses as neither shape hits the `panic!` arm and
aborts the process. -/
inductive TaskResult
  | returned (msg : Option OpenAIMessage)
  | panicked

/-- The parse-and-return tail of the async task in `update_npcs`
(lines 627–640), with `panic!` made explicit. -/
def dialog_task_result : ResponseParse → TaskResult
  | ResponseParse.success msg => TaskResult.returned (some msg)
  | ResponseParse.errorEnvelope _ _ => TaskResult.returned none
  | ResponseParse.unparseable => TaskResult.panicked

/-- Axis-aligned rectangle, from Bevy's `Rect` as used for regions. -/
structure Rect where
  minX : ℚ
  minY : ℚ
  maxX : ℚ
  maxY : ℚ

/-- Bevy `Rect::contains`: inclusive on all four bounds. -/
def Rect.containsPt (r : Rect) (p : ℚ × ℚ) : Bool :=
  decide (r.minX ≤ p.1 ∧ p.1 ≤ r.maxX ∧ r.minY ≤ p.2 ∧ p.2 ≤ r.maxY)

/-- Named region, from `struct Region`. -/
structure Region where
  name : String
  range : Rect

/-- The two regions spawned in `setup`: Theo's Family Farm
(`Rect::new(-700.0, 0.0, 140.0, 600.0)`) and Bill's Farm
(`Rect::new(-2400.0, 0.0, -1020.0, 1380.0)`). -/
def setup_regions : List Region :=
  [⟨"Theo's Family Farm", ⟨-700, 0, 140, 600⟩⟩,
   ⟨"Bill's Farm", ⟨-2400, 0, -1020, 1380⟩⟩]

/-- Per-NPC body of `update_travelers` (lines 757–771), with the
movement integration abstracted (position is returned unchanged while
still traveling; the claim this serves concerns only the state
transition and the panic).  The region for the destination is looked
up with `find` followed by `.unwrap()`: when no region carries the
destination name the unwrap panics, modelled as `none`.  Otherwise, if
the NPC is inside the region the state becomes `Idle`; if not it stays
`Traveling`. -/
def update_travelers_step (regions : List Region) (st : NPCState)
    (pos : ℚ × ℚ) : Option NPCState :=
  match st with
  | NPCState.Traveling destination =>
    match regions.find? (fun region => region.name == destination) with
    | none => none
    | some destination_region =>
      if destination_region.range.containsPt pos then some NPCState.Idle
      else some (NPCState.Traveling destination)
  | s => some s

/-!  ## Theorems for the claims  -/

/-- Claim C1, counterexample: the claim says a request is dispatched only
when the cooldown is ≤ 0 AND no `PendingDecision` exists, and that
dispatch never replaces an outstanding handle.  In the code the only
gate is the cooldown: at cooldown `0` with handle `5` still pending,
`update_npcs` dispatches anyway and the inserted `DialogRequest`
overwrites the outstanding handle `5` with the fresh handle `6`. -/
theorem update_npcs_dispatch_counterexample :
    update_npcs_step 1 6 0 (some 5) = (CHAT_COOLDOWN, some 6, true) ∧
    (update_npcs_step 1 6 0 (some 5)).2.1 ≠ some 5 := by
  exact ⟨rfl, by decide⟩

/-- Claim C1, amended: a new generation request is dispatched whenever
the agent's cooldown is ≤ 0, regardless of any existing
`PendingDecision`; on dispatch the cooldown is reset to
`CHAT_COOLDOWN` and the fresh handle is attached, replacing (and
thereby silently discarding) any outstanding handle; when the cooldown
is still positive it is decremented and the pending handle is left
untouched.  (At most one handle per agent still holds, but only
because component insertion overwrites.) -/
theorem update_npcs_dispatch_amended (dt : ℚ) (fresh : ℕ) (cooldown : ℚ)
    (pending : Option ℕ) :
    ((update_npcs_step dt fresh cooldown pending).2.2 = true ↔ cooldown ≤ 0) ∧
    (cooldown ≤ 0 →
      update_npcs_step dt fresh cooldown pending = (CHAT_COOLDOWN, some fresh, true)) ∧
    (0 < cooldown →
      update_npcs_step dt fresh cooldown pending = (cooldown - dt, pending, false)) := by
  unfold update_npcs_step
  by_cases h : cooldown > 0
  · refine ⟨by simp [h, not_le.mpr h], fun hle => absurd h (not_lt.mpr hle), fun _ => by simp [h]⟩
  · refine ⟨by simp [h, le_of_not_lt h], fun _ => by simp [h], fun hlt => absurd hlt h⟩

/-- Witness for the amended C1 theorem at concrete inputs: cooldown `0`
dispatches and resets, cooldown `5` merely counts down. -/
theorem update_npcs_dispatch_amended_witness :
    update_npcs_step 1 6 0 (some 5) = (CHAT_COOLDOWN, some 6, true) ∧
    update_npcs_step 1 6 5 (some 5) = (4, some 5, false) := by
  have h1 := (update_npcs_dispatch_amended 1 6 0 (some 5)).2.1 (by norm_num)
  have h2 := (update_npcs_dispatch_amended 1 6 5 (some 5)).2.2 (by norm_num)
  norm_num at h2
  exact ⟨h1, h2⟩

/-- Claim C4, counterexample: for three names the code produces
"Alice, Bob and Carol" — the last item is joined with "and" but there
is no comma before the final "and", contradicting the claimed
"X, Y, and Z". -/
theorem list_grammar_counterexample :
    nearby_people_sentence ["Alice", "Bob", "Carol"]
      = "You see Alice, Bob and Carol near you. " ∧
    nearby_people_sentence ["Alice", "Bob", "Carol"]
      ≠ "You see Alice, Bob, and Carol near you. " := by
  exact ⟨rfl, by decide⟩

/-- Claim C4, amended: for both the nearby-people list and the
containing-regions list, 0 names give the empty string, 1 name gives
"X", and 2 or more names give the earlier items comma-joined and the
last item joined with " and " with NO comma before the "and"
(so 2 names → "X and Y", 3 names → "X, Y and Z"). -/
theorem list_grammar_amended :
    (nearby_people_sentence [] = "" ∧ active_regions_sentence [] = "") ∧
    (∀ x, nearby_people_sentence [x] = "You see " ++ x ++ " near you. " ∧
      active_regions_sentence [x] = "You are currently in " ++ x ++ ". ") ∧
    (∀ init last, init ≠ [] →
      nearby_people_sentence (init ++ [last])
        = "You see " ++ String.intercalate ", " init ++ " and " ++ last ++ " near you. " ∧
      active_regions_sentence (init ++ [last])
        = "You are currently in " ++ String.intercalate ", " init ++ " and " ++ last ++ ". ") := by
  refine ⟨⟨rfl, rfl⟩, fun x => ⟨rfl, rfl⟩, fun init last h => ?_⟩
  have hlast : (init ++ [last]).getLast? = some last := by
    simp [List.getLast?_concat]
  have hdrop : (init ++ [last]).dropLast = init := by
    simp [List.dropLast_concat]
  have hlen : 0 < init.length := List.length_pos.mpr h
  constructor
  · unfold nearby_people_sentence
    rw [hlast]
    simp only [hdrop, if_pos hlen]
  · unfold active_regions_sentence
    rw [hlast]
    simp only [hdrop, if_pos hlen]

/-- Witness for the amended C4 theorem at three concrete names. -/
theorem list_grammar_amended_witness :
    nearby_people_sentence ["Alice", "Bob", "Carol"]
      = "You see Alice, Bob and Carol near you. " ∧
    active_regions_sentence ["Alice", "Bob", "Carol"]
      = "You are currently in Alice, Bob and Carol. " := by
  have h := list_grammar_amended.2.2 ["Alice", "Bob"] "Carol" (by decide)
  obtain ⟨h1, h2⟩ := h
  constructor
  · rw [show (["Alice", "Bob"] ++ ["Carol"] : List String) = ["Alice", "Bob", "Carol"] from rfl]
      at h1
    rw [h1]; rfl
  · rw [show (["Alice", "Bob"] ++ ["Carol"] : List String) = ["Alice", "Bob", "Carol"] from rfl]
      at h2
    rw [h2]; rfl

/-- Claim C5, counterexample: satiety reaching exactly 0 at resolution
time does NOT remove the character — `update_saturation` despawns only
on `saturation < 0.0` strictly.  With satiety 1 and frame time 1 the
new satiety is exactly 0 and the character survives. -/
theorem saturation_exact_zero_counterexample :
    update_saturation_step 1 1 [] [] = SatResult.alive 0 [] ∧
    update_saturation_step 1 1 [] [] ≠ SatResult.despawned := by
  have h : update_saturation_step 1 1 [] [] = SatResult.alive 0 [] := by
    unfold update_saturation_step
    norm_num
  refine ⟨h, ?_⟩
  rw [h]
  exact fun hc => SatResult.noConfusion hc

/-- Claim C5, amended: a character is despawned by `update_saturation`
exactly when its satiety after this tick's decay is STRICTLY below
zero; at exactly zero it survives (and the low-satiety Eat check
applies instead). -/
theorem saturation_despawn_amended (dt saturation : ℚ) (items : List (Item × ℕ))
    (actions : List Action) :
    update_saturation_step dt saturation items actions = SatResult.despawned ↔
      saturation - dt < 0 := by
  unfold update_saturation_step
  by_cases h : saturation - dt < 0
  · rw [if_pos h]; simp [h]
  · rw [if_neg h]
    by_cases h2 : saturation - dt < 30 ∧ (items.any fun p => decide (p.1.saturation > 0)) = true
    · rw [if_pos h2]; simp [h]
    · rw [if_neg h2]; simp [h]

/-- Natural growth from a fresh plant is exactly `min 1 (n × increment)`. -/
theorem grow_ticks_growth (n : ℕ) :
    (grow_ticks n ⟨0⟩).growth = min 1 (n * GROWTH_INCREMENT) := by
  induction n with
  | zero => simp [grow_ticks]
  | succ n ih =>
    show ((grow_ticks n ⟨0⟩).grow GROWTH_INCREMENT).growth = _
    unfold Plant.grow
    by_cases h : (grow_ticks n ⟨0⟩).growth + GROWTH_INCREMENT > 1
    · rw [if_pos h]
      have hn : (1 : ℚ) ≤ ((n : ℚ) + 1) * GROWTH_INCREMENT := by
        by_contra hcon
        push_neg at hcon
        have hexp : ((n : ℚ) + 1) * GROWTH_INCREMENT
            = (n : ℚ) * GROWTH_INCREMENT + GROWTH_INCREMENT := by ring
        rw [hexp] at hcon
        have hle : (grow_ticks n ⟨0⟩).growth ≤ (n : ℚ) * GROWTH_INCREMENT := by
          rw [ih]; exact min_le_right _ _
        linarith
      simp [min_eq_left hn]
    · rw [if_neg h]
      push_neg at h
      have hle1 : (grow_ticks n ⟨0⟩).growth + GROWTH_INCREMENT ≤ 1 := h
      have hmin : min 1 ((n : ℚ) * GROWTH_INCREMENT) = (n : ℚ) * GROWTH_INCREMENT := by
        rcases le_or_lt ((n : ℚ) * GROWTH_INCREMENT) 1 with hc | hc
        · exact min_eq_right hc
        · exfalso
          rw [ih, min_eq_left (le_of_lt hc)] at hle1
          have : (0 : ℚ) < GROWTH_INCREMENT := by norm_num [GROWTH_INCREMENT]
          linarith
      show (grow_ticks n ⟨0⟩).growth + GROWTH_INCREMENT = _
      rw [ih, hmin]
      have heq : ((n + 1 : ℕ) : ℚ) * GROWTH_INCREMENT
          = (n : ℚ) * GROWTH_INCREMENT + GROWTH_INCREMENT := by push_cast; ring
      rw [heq]
      have : (n : ℚ) * GROWTH_INCREMENT + GROWTH_INCREMENT ≤ 1 := by
        rw [ih, hmin] at hle1; exact hle1
      exact (min_eq_right this).symm

/-- Claim C6: starting from growth 0, after `n` ticks of natural growth
without harvest the growth equals `min 1 (n × increment)` (so growth is
clamped at 1), and resolving a Harvest on a grown, in-range plant
resets its growth to exactly 0 (and yields an item). -/
theorem growth_min_and_harvest_reset (n : ℕ) (dist : ℚ) (p : Plant) :
    (grow_ticks n ⟨0⟩).growth = min 1 (n * GROWTH_INCREMENT) ∧
    (dist < Plant.HARVEST_RANGE → p.is_grown = true →
      harvest_plant dist p = (⟨0⟩, true)) := by
  refine ⟨grow_ticks_growth n, fun hdist hgrown => ?_⟩
  unfold harvest_plant
  rw [if_pos hdist, hgrown]
  rfl

/-- Witness for the C6 theorem: after 3 ticks the growth is 3/1000;
after 2000 ticks it is clamped at 1; a grown plant at distance 10 is
harvested and reset to 0. -/
theorem growth_min_and_harvest_reset_witness :
    (grow_ticks 3 ⟨0⟩).growth = 3 / 1000 ∧
    (grow_ticks 2000 ⟨0⟩).growth = 1 ∧
    harvest_plant 10 ⟨1⟩ = (⟨0⟩, true) := by
  have h3 := (growth_min_and_harvest_reset 3 10 ⟨1⟩).1
  have h2000 := (growth_min_and_harvest_reset 2000 10 ⟨1⟩).1
  have hh := (growth_min_and_harvest_reset 3 10 ⟨1⟩).2
    (by norm_num [Plant.HARVEST_RANGE])
    (by simp [Plant.is_grown])
  refine ⟨?_, ?_, hh⟩
  · rw [h3]; norm_num [GROWTH_INCREMENT]
  · rw [h2000]; norm_num [GROWTH_INCREMENT]

/-- Claim C7: resolving `Eat` decrements the first positive-nutrition
entry by exactly one and adds that item's nutrition to satiety; with no
positive-nutrition entry it is a no-op; and it never increases any
inventory count.  Counts are assumed ≥ 1 where decremented (`u32` and
`ℕ` agree there; `inventory_update` removes zero-count entries before
actions resolve). -/
theorem eat_action_spec :
    (∀ (pre : List (Item × ℕ)) (item : Item) (count : ℕ) (post : List (Item × ℕ))
        (saturation : ℚ),
      (∀ q ∈ pre, (Prod.fst q).saturation ≤ 0) → 0 < item.saturation → 1 ≤ count →
      eat_items (pre ++ (item, count) :: post) saturation
        = (pre ++ (item, count - 1) :: post, saturation + item.saturation)) ∧
    (∀ (items : List (Item × ℕ)) (saturation : ℚ),
      (∀ q ∈ items, (Prod.fst q).saturation ≤ 0) →
      eat_items items saturation = (items, saturation)) ∧
    (∀ (items : List (Item × ℕ)) (saturation : ℚ),
      (∀ q ∈ items, 1 ≤ Prod.snd q) →
      List.Forall₂ (fun old new => Prod.fst new = Prod.fst old ∧ Prod.snd new ≤ Prod.snd old)
        items (eat_items items saturation).1) := by
  refine ⟨?_, ?_, ?_⟩
  · intro pre item count post saturation hpre hpos _
    induction pre with
    | nil => simp [eat_items, if_pos hpos]
    | cons q pre ih =>
      obtain ⟨qi, qc⟩ := q
      have hq : qi.saturation ≤ 0 := hpre (qi, qc) (by simp)
      have hrest : ∀ r ∈ pre, (Prod.fst r).saturation ≤ 0 :=
        fun r hr => hpre r (List.mem_cons_of_mem _ hr)
      simp only [List.cons_append, eat_items, if_neg (not_lt.mpr hq), List.append_eq]
      rw [ih hrest]
  · intro items saturation hall
    induction items with
    | nil => rfl
    | cons q items ih =>
      obtain ⟨qi, qc⟩ := q
      have hq : qi.saturation ≤ 0 := hall (qi, qc) (by simp)
      have hrest : ∀ r ∈ items, (Prod.fst r).saturation ≤ 0 :=
        fun r hr => hall r (List.mem_cons_of_mem _ hr)
      simp only [eat_items, if_neg (not_lt.mpr hq)]
      rw [ih hrest]
  · intro items saturation h
    clear h
    induction items with
    | nil => exact List.Forall₂.nil
    | cons q items ih =>
      obtain ⟨qi, qc⟩ := q
      by_cases hq : qi.saturation > 0
      · simp only [eat_items, if_pos hq]
        exact List.Forall₂.cons ⟨rfl, Nat.sub_le _ _⟩
          ((List.forall₂_same).mpr (fun a _ => ⟨rfl, le_refl _⟩))
      · simp only [eat_items, if_neg hq]
        exact List.Forall₂.cons ⟨rfl, le_refl _⟩ ih

/-- Witness for the C7 theorem: eating with inventory `[(Plant, 2)]`
decrements the Plant stack to 1 and adds 10 satiety; an empty
inventory is a no-op; counts never grow. -/
theorem eat_action_spec_witness :
    eat_items [(Item.Plant, 2)] 0 = ([(Item.Plant, 1)], 10) ∧
    eat_items [] 5 = ([], 5) ∧
    List.Forall₂ (fun old new => Prod.fst new = Prod.fst old ∧ Prod.snd new ≤ Prod.snd old)
      [(Item.Plant, 2)] (eat_items [(Item.Plant, 2)] 0).1 := by
  have h1 := eat_action_spec.1 [] Item.Plant 2 [] 0 (by simp)
    (by norm_num [Item.saturation]) (by norm_num)
  have h2 := eat_action_spec.2.1 [] 5 (by simp)
  have h3 := eat_action_spec.2.2 [(Item.Plant, 2)] 0 (by simp)
  refine ⟨?_, h2, h3⟩
  simp only [List.nil_append] at h1
  rw [h1]
  norm_num [Item.saturation]

/-- Claim C8, counterexample: the claim says the discrete growth stage
determines the harvest range, with lower stages giving a smaller range.
In the code the range is the constant `50.0` and eligibility is
`distance < 50 && is_grown`: plants at stage 0 and stage 2 have
identical (empty) harvest eligibility — no distance at all is in
range for either — and the distance threshold for the grown stage is
the same constant 50, so no stage-dependent range exists. -/
theorem harvest_range_stage_counterexample :
    Plant.get_growth_stage ⟨0⟩ = 0 ∧
    Plant.get_growth_stage ⟨2/3⟩ = 2 ∧
    Plant.get_growth_stage ⟨1⟩ = 3 ∧
    harvest_eligible 49 ⟨0⟩ = false ∧
    harvest_eligible 49 ⟨2/3⟩ = false ∧
    harvest_eligible 1 ⟨2/3⟩ = false ∧
    harvest_eligible 49 ⟨1⟩ = true ∧
    harvest_eligible 50 ⟨1⟩ = false := by
  refine ⟨?_, ?_, ?_, ?_, ?_, ?_, ?_, ?_⟩ <;>
    norm_num [Plant.get_growth_stage, harvest_eligible, Plant.is_grown, Plant.HARVEST_RANGE] <;>
    rfl

/-- Claim C8, amended: the discrete growth stage (`⌊growth × 3⌋`)
drives only the displayed texture; the harvest range is the fixed
constant `50` for every plant regardless of stage, and Harvest
eligibility is `distance < 50` together with the plant being fully
grown (`growth ≥ 1`).  In particular eligibility depends on the plant
only through `is_grown`, and the texture depends on it only through
the stage. -/
theorem harvest_range_amended (dist : ℚ) (p q : Plant) :
    (harvest_eligible dist p = true ↔ dist < 50 ∧ 1 ≤ p.growth) ∧
    (p.is_grown = q.is_grown → harvest_eligible dist p = harvest_eligible dist q) ∧
    (p.get_growth_stage = q.get_growth_stage → plant_texture p = plant_texture q) ∧
    Plant.HARVEST_RANGE = 50 := by
  refine ⟨?_, ?_, ?_, rfl⟩
  · unfold harvest_eligible Plant.is_grown Plant.HARVEST_RANGE
    simp [ge_iff_le]
  · intro hsame
    unfold harvest_eligible
    rw [hsame]
  · intro hsame
    unfold plant_texture
    rw [hsame]

/-- Witness for the amended C8 theorem: a grown plant at distance 10 is
eligible; stage-1 and stage-2 plants (both not grown) have identical
eligibility; equal stages give equal textures. -/
theorem harvest_range_amended_witness :
    harvest_eligible 10 ⟨1⟩ = true ∧
    harvest_eligible 49 ⟨1/3⟩ = harvest_eligible 49 ⟨2/3⟩ ∧
    plant_texture ⟨1/3⟩ = plant_texture ⟨11/30⟩ := by
  refine ⟨?_, ?_, ?_⟩
  · exact (harvest_range_amended 10 ⟨1⟩ ⟨1⟩).1.mpr (by norm_num)
  · exact (harvest_range_amended 49 ⟨1/3⟩ ⟨2/3⟩).2.1
      (by norm_num [Plant.is_grown])
  · exact (harvest_range_amended 0 ⟨1/3⟩ ⟨11/30⟩).2.2.1
      (by norm_num [Plant.get_growth_stage])

/-- Claim C9: a completed response's text content enqueues a `Talk`
action if and only if it is exactly prefixed with `"{agent name}: "`;
the enqueued `Talk` carries the text with that prefix stripped, and a
reply without the exact prefix (including one framed for a different
agent) enqueues nothing. -/
theorem talk_reply_spec :
    (∀ (name stripped : String) (actions : List Action),
      handle_content name (some (name ++ ": " ++ stripped)) actions
        = actions ++ [Action.Talk stripped]) ∧
    (∀ (name text : String) (actions : List Action),
      (name ++ ": ").data.isPrefixOf text.data = false →
      handle_content name (some text) actions = actions) ∧
    (∀ (name : String) (actions : List Action),
      handle_content name none actions = actions) := by
  refine ⟨?_, ?_, fun name actions => rfl⟩
  · intro name stripped actions
    have hassoc : (name ++ ": " ++ stripped : String) = (name ++ ": ") ++ stripped :=
      (String.append_assoc name ": " stripped).symm ▸ rfl
    simp only [handle_content, hassoc, strip_pre_append]
  · intro name text actions hnot
    simp only [handle_content, strip_pre_of_not (name ++ ": ") text hnot]

/-- Witness for the C9 theorem, Scenario B of the spec: the reply
"Theo: Hello there" enqueues `Talk "Hello there"` for agent "Theo" and
is discarded for agent "Jeff". -/
theorem talk_reply_spec_witness :
    handle_content "Theo" (some "Theo: Hello there") [] = [Action.Talk "Hello there"] ∧
    handle_content "Jeff" (some "Theo: Hello there") [] = [] := by
  constructor
  · have h := talk_reply_spec.1 "Theo" "Hello there" []
    have heq : ("Theo" ++ ": " ++ "Hello there" : String) = "Theo: Hello there" := rfl
    rw [heq] at h
    simpa using h
  · exact talk_reply_spec.2.1 "Jeff" "Theo: Hello there" [] (by decide)

/-- Claim C10: if an agent's state is `Traveling d` where `d` names no
existing region, `update_travelers` panics — the region lookup is
`find` followed by `.unwrap()`, modelled as the `none` outcome — and
this state is reachable because the `set_task` handler accepts any
destination string without validating it against region names, putting
the agent into `Traveling d` for arbitrary `d`. -/
theorem traveling_unknown_region_spec :
    (∀ (regions : List Region) (destination : String) (pos : ℚ × ℚ),
      (∀ r ∈ regions, Region.name r ≠ destination) →
      update_travelers_step regions (NPCState.Traveling destination) pos = none) ∧
    (∀ (destination : String) (cur : NPCState),
      handle_set_task
        (some (Json.obj [("task", Json.str "traveling"), ("destination", Json.str destination)]))
        cur = (NPCState.Traveling destination, false)) := by
  constructor
  · intro regions destination pos hnone
    have hfind : regions.find? (fun region => region.name == destination) = none := by
      rw [List.find?_eq_none]
      intro r hr
      simp [hnone r hr]
    simp only [update_travelers_step, hfind]
  · intro destination cur
    rfl

/-- Witness for the C10 theorem: with the two regions spawned in
`setup`, destination "Atlantis" names no region, so the traveling
update hits the unwrap panic; and the `set_task` handler happily sets
`Traveling "Atlantis"`. -/
theorem traveling_unknown_region_spec_witness :
    update_travelers_step setup_regions (NPCState.Traveling "Atlantis") (0, 0) = none ∧
    handle_set_task
      (some (Json.obj [("task", Json.str "traveling"), ("destination", Json.str "Atlantis")]))
      NPCState.Idle = (NPCState.Traveling "Atlantis", false) := by
  refine ⟨?_, traveling_unknown_region_spec.2 "Atlantis" NPCState.Idle⟩
  exact traveling_unknown_region_spec.1 setup_regions "Atlantis" (0, 0) (by decide)

/-- Claim C2: the claim says a response that parses as neither the
success shape nor the structured-error shape is logged and discarded
without aborting the process.  The code disagrees: the structured
error envelope IS logged and discarded (the task returns `None`, the
handler removes the request and leaves state and actions untouched),
but a body parsing as neither shape hits the `panic!` arm and aborts
the process.  This theorem evaluates the code on that failing input
(first conjunct) and verifies the surrounding discard behavior the
claim describes (remaining conjuncts). -/
theorem dialog_parse_failure_panics (name : String) (st : NPCState)
    (actions : List Action) (msg : OpenAIMessage) (emsg ety : String) :
    dialog_task_result ResponseParse.unparseable = TaskResult.panicked ∧
    dialog_task_result (ResponseParse.errorEnvelope emsg ety) = TaskResult.returned none ∧
    handle_completed name st actions none = (st, actions) ∧
    dialog_task_result (ResponseParse.success msg) = TaskResult.returned (some msg) := by
  exact ⟨rfl, rfl, rfl, rfl⟩

/-- Claim C3, counterexample: the claim says malformed/non-JSON
`set_task` arguments set the state to Idle.  In the code the
malformed-arguments branch only logs — the state is left unchanged: an
agent in `Farming` stays in `Farming`. -/
theorem set_task_malformed_counterexample :
    handle_set_task none NPCState.Farming = (NPCState.Farming, true) ∧
    (handle_set_task none NPCState.Farming).1 ≠ NPCState.Idle := by
  exact ⟨rfl, by decide⟩

/-- Claim C3, amended: `task="idle"` sets Idle; `task="farming"` sets
Farming; `task="traveling"` with a present (string) destination sets
`Traveling(destination)`; `task="traveling"` without a destination
sets Idle with a warning; an unrecognized task value sets Idle with a
warning; but malformed/non-JSON arguments, and arguments whose `task`
field is missing or not a string, only log a warning and leave the
state UNCHANGED. -/
theorem set_task_amended (j : Json) (cur : NPCState) (d t : String) :
    ((j.index "task").asStr = some "idle" →
      handle_set_task (some j) cur = (NPCState.Idle, false)) ∧
    ((j.index "task").asStr = some "farming" →
      handle_set_task (some j) cur = (NPCState.Farming, false)) ∧
    ((j.index "task").asStr = some "traveling" →
      (j.index "destination").asStr = some d →
      handle_set_task (some j) cur = (NPCState.Traveling d, false)) ∧
    ((j.index "task").asStr = some "traveling" →
      (j.index "destination").asStr = none →
      handle_set_task (some j) cur = (NPCState.Idle, true)) ∧
    ((j.index "task").asStr = some t →
      t ≠ "idle" → t ≠ "farming" → t ≠ "traveling" →
      handle_set_task (some j) cur = (NPCState.Idle, true)) ∧
    ((j.index "task").asStr = none → handle_set_task (some j) cur = (cur, true)) ∧
    handle_set_task none cur = (cur, true) := by
  refine ⟨?_, ?_, ?_, ?_, ?_, ?_, rfl⟩
  · intro ht
    simp [handle_set_task, ht]
  · intro ht
    simp [handle_set_task, ht]
  · intro ht hd
    simp [handle_set_task, ht, hd]
  · intro ht hd
    simp [handle_set_task, ht, hd]
  · intro ht h1 h2 h3
    simp only [handle_set_task, ht]
    rw [if_neg h1, if_neg h2, if_neg h3]
  · intro ht
    simp [handle_set_task, ht]

/-- Witness for the amended C3 theorem at concrete tool-call
arguments, covering Scenario C and the unchanged-state fallbacks. -/
theorem set_task_amended_witness :
    handle_set_task (some (Json.obj [("task", Json.str "traveling")]))
      NPCState.Farming = (NPCState.Idle, true) ∧
    handle_set_task (some (Json.obj [("task", Json.str "idle")]))
      NPCState.Farming = (NPCState.Idle, false) ∧
    handle_set_task (some (Json.obj [("task", Json.str "dancing")]))
      NPCState.Farming = (NPCState.Idle, true) ∧
    handle_set_task (some (Json.obj [("other", Json.str "x")]))
      NPCState.Farming = (NPCState.Farming, true) := by
  refine ⟨?_, ?_, ?_, ?_⟩
  · exact (set_task_amended (Json.obj [("task", Json.str "traveling")])
      NPCState.Farming "d" "t").2.2.2.1 rfl rfl
  · exact (set_task_amended (Json.obj [("task", Json.str "idle")])
      NPCState.Farming "d" "t").1 rfl
  · exact (set_task_amended (Json.obj [("task", Json.str "dancing")])
      NPCState.Farming "d" "dancing").2.2.2.2.1 rfl (by decide) (by decide) (by decide)
  · exact (set_task_amended (Json.obj [("other", Json.str "x")])
      NPCState.Farming "d" "t").2.2.2.2.2.1 rfl

end Rpg
